import Mathlib

/-!
Shallow embedding of the Shelf bookmark manager's synchronization core
(`src/lib/gist-storage.ts`, `src/lib/github.ts`, `src/lib/bookmark-context.tsx`),
together with theorems settling the specification claims about it.

Modelling conventions:
* JavaScript timestamps obtained through `new Date(s).getTime()` are modelled
  as `Option Int` (`none` models `NaN`, i.e. an unparseable date string); the
  parsing function itself is an uninterpreted parameter `jsDate : String → Option Int`
  threaded through the definitions that call `new Date(...)` on data strings.
* JavaScript `>` on numbers is `jsGt`: any comparison involving `NaN` is `false`.
* 32-bit integer coercion (`x | 0`, `x & x`, `<<`) is `toInt32`.
* Remote I/O (`githubClient`) is modelled by an environment record giving the
  outcome of each primitive call, plus an explicit event trace recording which
  remote operations (and conflict detections) a code path performs.
-/

namespace Shelf

/-- JavaScript strict `>` on two `getTime()` results; every comparison with
`NaN` (modelled as `none`) is `false`. -/
def jsGt : Option Int → Option Int → Bool
  | some a, some b => decide (b < a)
  | _, _ => false

/-- JavaScript test `Math.abs(a - b) < n` on two `getTime()` results; if either
side is `NaN` the whole comparison is `false`. -/
def jsAbsDiffLt : Option Int → Option Int → Int → Bool
  | some a, some b, n => decide (|a - b| < n)
  | _, _, _ => false

/-- Whether the first character list is a prefix of the second. -/
def charsHavePrefix : List Char → List Char → Bool
  | [], _ => true
  | _ :: _, [] => false
  | a :: as, b :: bs => a == b && charsHavePrefix as bs

/-- Whether `pat` occurs as a contiguous run inside the second list. -/
def charsContain (pat : List Char) : List Char → Bool
  | [] => charsHavePrefix pat []
  | c :: rest => charsHavePrefix pat (c :: rest) || charsContain pat rest

/-- JavaScript `String.prototype.includes`: `true` iff `pat` occurs as a
substring of `s` (the pattern used in the source is always non-empty). -/
def jsIncludes (s pat : String) : Bool := charsContain pat.toList s.toList

/-- ECMAScript ToInt32: reduce an exact integer into `[-2^31, 2^31)`. -/
def toInt32 (n : Int) : Int := (n + 2 ^ 31) % 2 ^ 32 - 2 ^ 31

/-- One step of the checksum loop in `generateChecksum`
(`hash = ((hash << 5) - hash) + char; hash = hash & hash`). `hash << 5` is the
32-bit shift of the current 32-bit hash and `hash & hash` is ToInt32 of the
exact intermediate sum. -/
def hashStep (hash : Int) (c : Char) : Int :=
  toInt32 (toInt32 (hash * 32) - hash + c.toNat)

/-- Digit character for base-36 output of `Number.prototype.toString(36)`. -/
def base36Digit (n : Nat) : Char :=
  if n < 10 then Char.ofNat (48 + n) else Char.ofNat (87 + n)

/-- Accumulate base-36 digits of `n` (most significant first). -/
def natToBase36Aux : Nat → List Char → List Char
  | 0, acc => acc
  | n + 1, acc => natToBase36Aux ((n + 1) / 36) (base36Digit ((n + 1) % 36) :: acc)
decreasing_by exact Nat.div_lt_self (Nat.succ_pos n) (by omega)

/-- JavaScript `n.toString(36)` for a non-negative integer. -/
def natToBase36 (n : Nat) : String :=
  if n = 0 then "0" else String.mk (natToBase36Aux n [])

/-- Hexadecimal digit character (lower case), for JSON control-character escapes. -/
def hexDigit (n : Nat) : Char :=
  if n < 10 then Char.ofNat (48 + n) else Char.ofNat (87 + n)

/-- JSON.stringify escaping of a single character inside a string literal. -/
def jsonEscapeChar (c : Char) : String :=
  if c = '"' then "\\\""
  else if c = '\\' then "\\\\"
  else if c = '\n' then "\\n"
  else if c = '\r' then "\\r"
  else if c = '\t' then "\\t"
  else if c = '\x08' then "\\b"
  else if c = '\x0c' then "\\f"
  else if c.toNat < 32 then "\\u00" ++ String.mk [hexDigit (c.toNat / 16), hexDigit (c.toNat % 16)]
  else String.singleton c

/-- JSON.stringify of a string value. -/
def jsonQuote (s : String) : String :=
  "\"" ++ String.join (s.toList.map jsonEscapeChar) ++ "\""

/-! ## Data model (`src/lib/types.ts`) -/

/-- Collection record (`src/lib/types.ts`). -/
structure Collection where
  id : String
  name : String
  icon : Option String := none
  color : Option String := none
  order : Int
deriving DecidableEq, Repr

/-- Bookmark record (`src/lib/types.ts`). The two timestamp fields are the ISO
strings stored in the data; they are parsed with `jsDate` where the source
calls `new Date(...)`. -/
structure Bookmark where
  id : String
  collectionId : String
  title : String
  url : String
  description : Option String := none
  favicon : Option String := none
  image : Option String := none
  tags : Option (List String) := none
  pinned : Option Bool := none
  order : Int
  createdAt : String
  updatedAt : String
deriving DecidableEq, Repr

/-- The synchronization unit (`BookmarkData` in `src/lib/types.ts`). -/
structure BookmarkData where
  collections : List Collection
  bookmarks : List Bookmark
  lastUpdated : String
deriving DecidableEq, Repr

/-- Sync metadata stored next to the data file in the gist
(`GistMetadata` in `src/lib/gist-storage.ts`). -/
structure GistMetadata where
  version : String
  lastSync : String
  deviceId : String
  syncCount : Nat
  checksum : String
deriving DecidableEq, Repr

/-- A parsed remote package (`GistDataPackage`). -/
structure GistDataPackage where
  data : BookmarkData
  metadata : GistMetadata
deriving DecidableEq, Repr

/-- Conflict classification (`SyncConflict['type']`). -/
inductive ConflictType
  | data
  | version
  | merge
deriving DecidableEq, Repr

/-- A detected synchronization conflict (`SyncConflict`). -/
structure SyncConflict where
  type : ConflictType
  localData : BookmarkData
  remoteData : BookmarkData
  localMetadata : GistMetadata
  remoteMetadata : GistMetadata
  message : String
deriving DecidableEq, Repr

/-- The `action` field of a `SyncResult`. -/
inductive SyncAction
  | uploaded
  | downloaded
  | merged
  | no_change
  | conflict
deriving DecidableEq, Repr

/-- Result value returned by every sync entry point (`SyncResult`). -/
structure SyncResult where
  success : Bool
  action : SyncAction
  data : Option BookmarkData := none
  conflict : Option SyncConflict := none
  error : Option String := none
  gistId : Option String := none
deriving DecidableEq, Repr

/-! ## Constants (`src/lib/gist-storage.ts`, top of file) -/

def DATA_VERSION : String := "1.0.0"

/-! ## Checksum (`GistStorageService.generateChecksum`, lines 105-114)

The source runs `JSON.stringify(data, Object.keys(data).sort())`. The second
argument is a *replacer array*: per ECMA-262 it restricts, at every nesting
level, the serialized keys to those listed, in list order. Its value here is
`["bookmarks", "collections", "lastUpdated"]` (the sorted keys of a
`BookmarkData` object), so the top level keeps its three keys in that order,
while every nested collection/bookmark object has none of its keys in the list
and serializes as `\x7b\x7d`; array elements are unaffected by the filter. -/

/-- The string `JSON.stringify(data, ["bookmarks", "collections", "lastUpdated"])`
produces for a `BookmarkData` value. -/
def stringifyFiltered (data : BookmarkData) : String :=
  "\x7b\"bookmarks\":[" ++
    String.intercalate "," (data.bookmarks.map (fun _ => "\x7b\x7d")) ++
    "],\"collections\":[" ++
    String.intercalate "," (data.collections.map (fun _ => "\x7b\x7d")) ++
    "],\"lastUpdated\":" ++ jsonQuote data.lastUpdated ++ "\x7d"

/-- Model of `GistStorageService.generateChecksum`: hash the serialized form
character by character, then render `Math.abs(hash)` in base 36. Characters are
modelled by their code points, which agrees with `charCodeAt` on the Basic
Multilingual Plane (all strings produced here are ASCII). -/
def generateChecksum (data : BookmarkData) : String :=
  natToBase36 (((stringifyFiltered data).toList.foldl hashStep 0).natAbs)

/-- Model of `GistStorageService.createMetadata`. `nowIso` stands for
`new Date().toISOString()` at the call instant. -/
def createMetadata (deviceId nowIso : String) (data : BookmarkData)
    (syncCount : Nat := 0) : GistMetadata :=
  { version := DATA_VERSION
    lastSync := nowIso
    deviceId := deviceId
    syncCount := syncCount + 1
    checksum := generateChecksum data }

/-! ## Conflict detection (`GistStorageService.detectConflict`, lines 260-290,
and `getConflictMessage`, lines 295-311) -/

/-- JavaScript `Math.round(t / 60000)` for an exact non-negative integer `t`
(true real-valued division, which `Math.round` sees exactly for the magnitudes
involved); rounds halves up, i.e. `⌊t/60000 + 1/2⌋`. A `NaN` input stays `NaN`
and prints as the string `NaN`. -/
def roundMinutes : Option Int → Option Int
  | some t => some ((2 * t + 60000) / 120000)
  | none => none

/-- JavaScript template rendering of a possibly-`NaN` number. -/
def numToString : Option Int → String
  | some n => toString n
  | none => "NaN"

/-- JavaScript `Math.abs(a - b)` on two `getTime()` results (`NaN` propagates). -/
def jsAbsDiff : Option Int → Option Int → Option Int
  | some a, some b => some |a - b|
  | _, _ => none

/-- Model of `GistStorageService.getConflictMessage`. -/
def getConflictMessage (type : ConflictType) (localTime remoteTime : Option Int) : String :=
  let timeDiff := jsAbsDiff localTime remoteTime
  let minutesDiff := roundMinutes timeDiff
  match type with
  | .merge =>
      "Changes made simultaneously on different devices (" ++ numToString minutesDiff ++
        " minutes apart)"
  | .data =>
      "Data conflict: Local changes are " ++
        (if jsGt localTime remoteTime then "newer" else "older") ++ " than remote"
  | .version => "Data synchronization conflict detected"

/-- Model of `GistStorageService.detectConflict`. `jsDate` interprets
`new Date(s).getTime()`, `deviceId` is `this.deviceId`, and `nowIso` the
current time used by the `createMetadata` call building `localMetadata`. -/
def detectConflict (jsDate : String → Option Int) (deviceId nowIso : String)
    (localData : BookmarkData) (remotePackage : GistDataPackage) : Option SyncConflict :=
  let localUpdated := jsDate localData.lastUpdated
  let remoteUpdated := jsDate remotePackage.data.lastUpdated
  if jsGt remoteUpdated localUpdated && (remotePackage.metadata.deviceId != deviceId) then
    none
  else if jsGt localUpdated remoteUpdated && (remotePackage.metadata.deviceId == deviceId) then
    none
  else
    let conflictType : ConflictType :=
      if jsAbsDiffLt localUpdated remoteUpdated 5000 then .merge else .data
    some
      { type := conflictType
        localData := localData
        remoteData := remotePackage.data
        localMetadata := createMetadata deviceId nowIso localData
        remoteMetadata := remotePackage.metadata
        message := getConflictMessage conflictType localUpdated remoteUpdated }

/-! ## Merge (`GistStorageService.mergeData`, lines 316-341)

The source accumulates entries in a JavaScript `Map` keyed by `id`:
`Map.set` on a fresh key appends, `Map.set` on an existing key replaces the
value in place, and `Map.values()` iterates in insertion order. We model the
map by its value list in insertion order. -/

/-- One `forEach` step of the merge loops: look the incoming element's key up;
append it if absent, replace the stored element in place if `better` prefers
the incoming one, and otherwise keep the map unchanged. -/
def insertPref {α : Type} (key : α → String) (better : α → α → Bool)
    (m : List α) (b : α) : List α :=
  match m.find? (fun x => key x == key b) with
  | some e => if better b e then m.map (fun x => if key x == key b then b else x) else m
  | none => m ++ [b]

/-- Merge a whole list into an initially empty map, in iteration order. -/
def mergeById {α : Type} (key : α → String) (better : α → α → Bool)
    (l : List α) : List α :=
  l.foldl (insertPref key better) []

/-- Preference used for colliding collections: the source compares
`new Date(collection.name).getTime()` values with `>`, treating the collection
*name* as a date. -/
def collectionBetter (jsDate : String → Option Int) (c e : Collection) : Bool :=
  jsGt (jsDate c.name) (jsDate e.name)

/-- Preference used for colliding bookmarks: compare parsed `updatedAt` with `>`. -/
def bookmarkBetter (jsDate : String → Option Int) (b e : Bookmark) : Bool :=
  jsGt (jsDate b.updatedAt) (jsDate e.updatedAt)

/-- Model of `GistStorageService.mergeData`. `nowIso` stands for the
`new Date().toISOString()` call producing the merged snapshot's `lastUpdated`. -/
def mergeData (jsDate : String → Option Int) (nowIso : String)
    (localData remoteData : BookmarkData) : BookmarkData :=
  { collections :=
      mergeById Collection.id (collectionBetter jsDate)
        (localData.collections ++ remoteData.collections)
    bookmarks :=
      mergeById Bookmark.id (bookmarkBetter jsDate)
        (localData.bookmarks ++ remoteData.bookmarks)
    lastUpdated := nowIso }

/-! ## Remote environment and gist parsing -/

/-- Errors thrown by the GitHub client (`GitHubAPIError` and its two
subclasses `GitHubAuthError` and `GitHubRateLimitError` in `src/lib/github.ts`).
Network failures are wrapped by the client into the plain `api` form with
status 0 before they escape `makeRequestWithRetry`. -/
inductive GhError
  | auth (message : String)
  | rateLimit (message : String) (resetTime : Int)
  | api (message : String) (status : Nat)
deriving DecidableEq, Repr

/-- State of one named file of a gist as seen by `parseGistData`:
`absent` covers a missing file key as well as a file with missing/empty
content (both fail the JavaScript truthiness tests `!dataFile` and
`!dataFile.content`); `malformed` is content on which `JSON.parse` throws;
`parsed` carries the parsed value. -/
inductive JsonFile (α : Type)
  | absent
  | malformed
  | parsed (value : α)
deriving DecidableEq, Repr

/-- The data file's parse result before structural validation: each field is
`none` when missing from the parsed JSON object. -/
structure RawBookmarkData where
  collectionsField : Option (List Collection)
  bookmarksField : Option (List Bookmark)
  lastUpdatedField : Option String
deriving DecidableEq, Repr

/-- A remote gist, restricted to the two files the service reads
(`shelf-bookmarks.json` and `shelf-metadata.json`). -/
structure Gist where
  id : String
  dataFile : JsonFile RawBookmarkData
  metaFile : JsonFile GistMetadata
deriving DecidableEq, Repr

/-- Model of `GistStorageService.parseGistData` (lines 164-201). Any throw
inside the body is caught and turned into `none`: a missing/empty data file, a
data or metadata file `JSON.parse` rejects, and the structural validation
`!data.collections || !data.bookmarks || !data.lastUpdated` (an empty
`lastUpdated` string is falsy; arrays are always truthy). A missing metadata
file only triggers the legacy default `createMetadata(data)`. The checksum
comparison merely logs a warning and is not modelled. -/
def parseGistData (deviceId nowIso : String) (gist : Gist) : Option GistDataPackage :=
  match gist.dataFile with
  | .absent => none
  | .malformed => none
  | .parsed raw =>
    match gist.metaFile with
    | .malformed => none
    | mf =>
      match raw.collectionsField, raw.bookmarksField, raw.lastUpdatedField with
      | some cs, some bs, some lu =>
        if lu == "" then none
        else
          let data : BookmarkData := { collections := cs, bookmarks := bs, lastUpdated := lu }
          let metadata :=
            match mf with
            | .parsed m => m
            | _ => createMetadata deviceId nowIso data
          some { data := data, metadata := metadata }
      | _, _, _ => none

/-! ## Sync engine (`GistStorageService.uploadToGist`, `syncWithGist`,
`resolveConflict`)

The remote side is modelled by `ServiceEnv`, giving the outcome of each
primitive the engine can hit during one entry-point call. The service-level
`findBookmarkGist` (lines 132-159) never throws: the inner lookup by stored id
catches its own errors and falls through to `githubClient.findBookmarkGist`,
which catches every error from the list request and returns `null`
(`src/lib/github.ts`, lines 532-551); so its outcome is a plain
`Option Gist`. `createGist`/`updateGist` are the raw client calls, whose
errors propagate through `createBookmarkGist`/`updateBookmarkGist`
(catch-log-rethrow) into the caller's `catch`. Each modelled function also
returns the trace of remote calls it performed, plus a marker event for each
run of `detectConflict`. -/

/-- One observable step of a sync entry point. -/
inductive Event
  | findBookmarkGist
  | createGist
  | updateGist (gistId : String)
  | detect
deriving DecidableEq, Repr

/-- Outcomes of the remote primitives during one entry-point call. -/
structure ServiceEnv where
  authenticated : Bool
  findGist : Option Gist
  createGist : Except GhError Gist
  updateGist : Except GhError Gist
deriving Repr

/-- Error message selection shared by the catch blocks of `uploadToGist`,
`downloadFromGist` and `syncWithGist` (`isAuthError` / `isRateLimitError` /
`instanceof GitHubAPIError`). Every error the client can throw is a
`GitHubAPIError`, so the per-function default message is unreachable. -/
def uploadErrorMessage : GhError → String
  | .auth _ => "Authentication failed. Please re-authenticate with GitHub."
  | .rateLimit m _ => "Rate limit exceeded. " ++ m
  | .api m _ => m

/-- Model of `GistStorageService.uploadToGist` (lines 346-390): find the
bookmark gist, update it if present and create it otherwise; any client error
is caught and reported with `action: 'uploaded'` and `success: false`. -/
def uploadToGist (env : ServiceEnv) (data : BookmarkData) : SyncResult × List Event :=
  if !env.authenticated then
    ({ success := false, action := .uploaded,
       error := some "Not authenticated with GitHub" }, [])
  else
    match env.findGist with
    | some existingGist =>
      match env.updateGist with
      | .ok gist =>
        ({ success := true, action := .uploaded, data := some data,
           gistId := some gist.id }, [.findBookmarkGist, .updateGist existingGist.id])
      | .error e =>
        ({ success := false, action := .uploaded,
           error := some (uploadErrorMessage e) },
         [.findBookmarkGist, .updateGist existingGist.id])
    | none =>
      match env.createGist with
      | .ok gist =>
        ({ success := true, action := .uploaded, data := some data,
           gistId := some gist.id }, [.findBookmarkGist, .createGist])
      | .error e =>
        ({ success := false, action := .uploaded,
           error := some (uploadErrorMessage e) }, [.findBookmarkGist, .createGist])

/-- Prefix a trace onto a traced result. -/
def withTrace (pre : List Event) (r : SyncResult × List Event) : SyncResult × List Event :=
  (r.1, pre ++ r.2)

/-- Model of `GistStorageService.syncWithGist` (lines 453-530). The body of
the source `try` cannot throw (every callee catches its own errors as modelled
above), so the surrounding catch block mapping errors to
`(success: false, action: 'no_change')` is unreachable and the model is a
total function into `SyncResult`. -/
def syncWithGist (env : ServiceEnv) (jsDate : String → Option Int)
    (deviceId nowIso : String) (localData : BookmarkData) : SyncResult × List Event :=
  if !env.authenticated then
    ({ success := false, action := .no_change,
       error := some "Not authenticated with GitHub" }, [])
  else
    match env.findGist with
    | none => withTrace [.findBookmarkGist] (uploadToGist env localData)
    | some gist =>
      match parseGistData deviceId nowIso gist with
      | none => withTrace [.findBookmarkGist] (uploadToGist env localData)
      | some remotePackage =>
        match detectConflict jsDate deviceId nowIso localData remotePackage with
        | some conflict =>
          ({ success := false, action := .conflict, conflict := some conflict,
             gistId := some gist.id }, [.findBookmarkGist, .detect])
        | none =>
          let localUpdated := jsDate localData.lastUpdated
          let remoteUpdated := jsDate remotePackage.data.lastUpdated
          if jsGt localUpdated remoteUpdated then
            withTrace [.findBookmarkGist, .detect] (uploadToGist env localData)
          else if jsGt remoteUpdated localUpdated then
            ({ success := true, action := .downloaded,
               data := some remotePackage.data, gistId := some gist.id },
             [.findBookmarkGist, .detect])
          else
            ({ success := true, action := .no_change, data := some localData,
               gistId := some gist.id }, [.findBookmarkGist, .detect])

/-- The three user resolutions accepted by `resolveConflict`. -/
inductive Resolution
  | useLocal
  | useRemote
  | useMerge
deriving DecidableEq, Repr

/-- Model of `GistStorageService.resolveConflict` (lines 535-569): `'local'`
uploads the conflict's local snapshot, `'remote'` returns a `downloaded`
result immediately, `'merge'` uploads the merged snapshot. -/
def resolveConflict (env : ServiceEnv) (jsDate : String → Option Int) (nowIso : String)
    (conflict : SyncConflict) (resolution : Resolution) : SyncResult × List Event :=
  match resolution with
  | .useLocal => uploadToGist env conflict.localData
  | .useRemote =>
    ({ success := true, action := .downloaded, data := some conflict.remoteData }, [])
  | .useMerge =>
    uploadToGist env (mergeData jsDate nowIso conflict.localData conflict.remoteData)

/-! ## Request retry loop (`GitHubClient.makeRequestWithRetry`,
`src/lib/github.ts` lines 327-389) -/

def DEFAULT_RETRY_ATTEMPTS : Nat := 3

def DEFAULT_RETRY_DELAY : Nat := 1000

/-- Outcome of one `fetch` during the retry loop: either the promise rejects
(network failure) or a response arrives, with its status, status text, the
optional `message` field of its JSON body, and the optional
`X-RateLimit-Reset` header value (seconds). -/
inductive FetchOutcome
  | netError (message : String)
  | response (status : Nat) (statusText : String) (bodyMessage : Option String)
      (rateReset : Option Nat)
deriving DecidableEq, Repr

/-- Environment of the retry loop: the outcome of the k-th attempt (1-based),
and the locale-dependent rendering `new Date(t).toLocaleTimeString()` used in
the rate-limit message. -/
structure RetryEnv where
  fetch : Nat → FetchOutcome
  fmtResetTime : Int → String

deriving instance DecidableEq for Except

/-- Observable outcome of `makeRequestWithRetry`: the value or thrown error,
the backoff delays slept (in order), the number of fetch attempts performed,
and whether the stored token was cleared. A successful 2xx response is
modelled as `.ok ()`. -/
structure RequestOutcome where
  result : Except GhError Unit
  delays : List Nat
  attempts : Nat
  tokenCleared : Bool
deriving DecidableEq, Repr

/-- Model of `GitHubClient.makeRequestWithRetry`, by case on the current
attempt's outcome:
* 2xx: return the parsed body.
* 401: clear the stored token, throw `GitHubAuthError` (rethrown by the catch).
* 403 whose body message contains `'rate limit'`: throw `GitHubRateLimitError`
  carrying `parseInt(reset-header or '0') * 1000` (rethrown by the catch).
* status ≥ 500 with attempts remaining: sleep `1000 * 2^(attempt-1)` ms, retry.
* any other response: throw `GitHubAPIError` with the body's `message`,
  falling back to `'GitHub API error: <statusText>'` (rethrown by the catch).
  For a 403 that was not a rate limit, the body was already consumed by the
  rate-limit check above, so the second `response.json()` here rejects, the
  `.catch` yields an empty object, and the error always carries the generic
  `'GitHub API error: <statusText>'` message regardless of the body.
* network failure with attempts remaining: same backoff and retry; otherwise
  wrap into `GitHubAPIError('Network error: ...', 0)`. -/
def makeRequestWithRetry (env : RetryEnv) (attempt : Nat) : RequestOutcome :=
  match env.fetch attempt with
  | .netError msg =>
    if h : attempt < DEFAULT_RETRY_ATTEMPTS then
      let rest := makeRequestWithRetry env (attempt + 1)
      { result := rest.result
        delays := DEFAULT_RETRY_DELAY * 2 ^ (attempt - 1) :: rest.delays
        attempts := rest.attempts + 1
        tokenCleared := rest.tokenCleared }
    else
      { result := .error (.api ("Network error: " ++ msg) 0)
        delays := [], attempts := 1, tokenCleared := false }
  | .response status statusText bodyMessage rateReset =>
    if 200 ≤ status ∧ status < 300 then
      { result := .ok (), delays := [], attempts := 1, tokenCleared := false }
    else if status == 401 then
      { result := .error (.auth "Authentication failed. Please re-authenticate.")
        delays := [], attempts := 1, tokenCleared := true }
    else if status == 403 && (bodyMessage.map (fun m => jsIncludes m "rate limit")).getD false then
      let resetTime : Int := (rateReset.getD 0 : Nat) * 1000
      { result := .error (.rateLimit
          ("Rate limit exceeded. Resets at " ++ env.fmtResetTime resetTime) resetTime)
        delays := [], attempts := 1, tokenCleared := false }
    else if h : 500 ≤ status ∧ attempt < DEFAULT_RETRY_ATTEMPTS then
      let rest := makeRequestWithRetry env (attempt + 1)
      { result := rest.result
        delays := DEFAULT_RETRY_DELAY * 2 ^ (attempt - 1) :: rest.delays
        attempts := rest.attempts + 1
        tokenCleared := rest.tokenCleared }
    else
      { result := .error (.api
          (if status == 403 then "GitHub API error: " ++ statusText
           else bodyMessage.getD ("GitHub API error: " ++ statusText)) status)
        delays := [], attempts := 1, tokenCleared := false }
termination_by DEFAULT_RETRY_ATTEMPTS - attempt
decreasing_by
  all_goals omega

/-! ## Sync triggers (`src/lib/bookmark-context.tsx`)

Each trigger's synchronous guard logic, read off the source. -/

/-- Local sync status of the UI state machine (`SyncState['status']`). -/
inductive UISyncStatus
  | idle
  | syncing
  | success
  | error
  | conflict
deriving DecidableEq, Repr

/-- The auto-sync interval effect (lines 369-379): the interval exists only
while `autoSync` is enabled, GitHub is connected and the interval is positive,
and its tick starts a sync only when the current status is `'idle'`. -/
def autoSyncTickStarts (autoSync connected : Bool) (intervalMinutes : Nat)
    (status : UISyncStatus) : Bool :=
  autoSync && connected && decide (0 < intervalMinutes) && (status == .idle)

/-- The debounced trigger `triggerAutoSync` (lines 480-490): it schedules the
delayed `performSync('auto')` only when the status is `'idle'` at scheduling
time (nothing is re-checked when the timeout later fires). -/
def triggerAutoSyncSchedules (autoSync connected : Bool) (status : UISyncStatus) : Bool :=
  autoSync && connected && (status == .idle)

/-- Whether `performSync` (lines 391-400) proceeds to start a sync (transition
to `'syncing'` and call `gistStorage.syncWithGist`). The body returns early
only when GitHub is not connected; the current sync status is not consulted,
which is why the parameter is unused. -/
def performSyncStarts (connected : Bool) (_status : UISyncStatus) : Bool :=
  connected

/-! ## Lemmas about the id-keyed merge map -/

section MergeLemmas

variable {α : Type} (key : α → String) (better : α → α → Bool)

/-- The element stored for a key after one more colliding element arrives. -/
def keep (acc b : α) : α := if better b acc then b else acc

/-- Association-map lookup by key. -/
def lookupK (m : List α) (k : String) : Option α :=
  m.find? (fun x => key x == k)

/-- The element finally stored for one key, given the previously stored entry
(if any) and the colliding elements in arrival order. -/
def winner : Option α → List α → Option α
  | some e, fl => some (fl.foldl (keep better) e)
  | none, [] => none
  | none, h :: t => some (t.foldl (keep better) h)

theorem find?_map_congr {p : α → Bool} {f : α → α} (l : List α)
    (hp : ∀ x ∈ l, p (f x) = p x) (hf : ∀ x ∈ l, p x = true → f x = x) :
    (l.map f).find? p = l.find? p := by
  induction l with
  | nil => rfl
  | cons a t ih =>
    have hpa := hp a (List.mem_cons_self a t)
    cases hq : p a with
    | true =>
      rw [List.map_cons, List.find?_cons_of_pos _ (by rw [hpa, hq]),
        List.find?_cons_of_pos _ hq, hf a (List.mem_cons_self a t) hq]
    | false =>
      rw [List.map_cons, List.find?_cons_of_neg _ (by rw [hpa, hq]; simp),
        List.find?_cons_of_neg _ (by rw [hq]; simp)]
      exact ih (fun x hx => hp x (List.mem_cons_of_mem a hx))
        (fun x hx => hf x (List.mem_cons_of_mem a hx))

theorem find?_map_replace {p : α → Bool} {f : α → α} (l : List α) (e : α)
    (hp : ∀ x ∈ l, p (f x) = p x) (he : l.find? p = some e) :
    (l.map f).find? p = some (f e) := by
  induction l with
  | nil => simp at he
  | cons a t ih =>
    have hpa := hp a (List.mem_cons_self a t)
    cases hq : p a with
    | true =>
      rw [List.find?_cons_of_pos _ hq] at he
      rw [List.map_cons, List.find?_cons_of_pos _ (by rw [hpa, hq]), Option.some.injEq] at *
      cases he
      rfl
    | false =>
      rw [List.find?_cons_of_neg _ (by rw [hq]; simp)] at he
      rw [List.map_cons, List.find?_cons_of_neg _ (by rw [hpa, hq]; simp)]
      exact ih (fun x hx => hp x (List.mem_cons_of_mem a hx)) he

theorem insertPref_of_find_none (m : List α) (b : α)
    (hfind : m.find? (fun x => key x == key b) = none) :
    insertPref key better m b = m ++ [b] := by
  unfold insertPref
  rw [hfind]

theorem insertPref_of_find_some_better (m : List α) (b e : α)
    (hfind : m.find? (fun x => key x == key b) = some e) (hb : better b e = true) :
    insertPref key better m b = m.map (fun x => if key x == key b then b else x) := by
  unfold insertPref
  rw [hfind]
  simp [hb]

theorem insertPref_of_find_some_keep (m : List α) (b e : α)
    (hfind : m.find? (fun x => key x == key b) = some e) (hb : better b e = false) :
    insertPref key better m b = m := by
  unfold insertPref
  rw [hfind]
  simp [hb]

theorem lookupK_insertPref_ne (m : List α) (b : α) (k : String) (h : k ≠ key b) :
    lookupK key (insertPref key better m b) k = lookupK key m k := by
  cases hfind : m.find? (fun x => key x == key b) with
  | none =>
    rw [insertPref_of_find_none key better m b hfind]
    unfold lookupK
    rw [List.find?_append]
    have hb1 : List.find? (fun x => key x == k) [b] = none := by
      rw [List.find?_eq_none]
      intro x hx
      rw [List.mem_singleton] at hx
      subst hx
      simp only [beq_iff_eq]
      exact fun hc => h hc.symm
    rw [hb1]
    exact Option.or_none
  | some e =>
    cases hb : better b e with
    | true =>
      rw [insertPref_of_find_some_better key better m b e hfind hb]
      unfold lookupK
      apply find?_map_congr
      · intro x _
        by_cases hx : (key x == key b) = true
        · have hxb : key x = key b := by simpa using hx
          simp [hx, hxb]
        · simp [hx]
      · intro x _ hx
        have hxk : key x = k := by simpa using hx
        have h2 : (key x == key b) = false := by
          rw [beq_eq_false_iff_ne, hxk]
          exact h
        simp [h2]
    | false =>
      rw [insertPref_of_find_some_keep key better m b e hfind hb]

theorem lookupK_insertPref_self (m : List α) (b : α) :
    lookupK key (insertPref key better m b) (key b) =
      some (match lookupK key m (key b) with
            | some e => keep better e b
            | none => b) := by
  cases hfind : m.find? (fun x => key x == key b) with
  | none =>
    rw [insertPref_of_find_none key better m b hfind]
    unfold lookupK
    rw [List.find?_append, hfind]
    simp [List.find?]
  | some e =>
    cases hb : better b e with
    | true =>
      rw [insertPref_of_find_some_better key better m b e hfind hb]
      unfold lookupK
      have hmap := find?_map_replace (p := fun x => key x == key b)
        (f := fun x => if key x == key b then b else x) m e ?_ hfind
      · rw [hmap, hfind]
        have hek : (key e == key b) = true := by
          have h1 := List.find?_some hfind
          simpa using h1
        simp [hek, keep, hb]
      · intro x _
        by_cases hx : (key x == key b) = true
        · have hxb : key x = key b := by simpa using hx
          simp [hx, hxb]
        · simp [hx]
    | false =>
      rw [insertPref_of_find_some_keep key better m b e hfind hb]
      unfold lookupK
      rw [hfind]
      simp [keep, hb]

theorem lookupK_foldl (l : List α) (m : List α) (k : String) :
    lookupK key (l.foldl (insertPref key better) m) k =
      winner better (lookupK key m k) (l.filter (fun x => key x == k)) := by
  induction l generalizing m with
  | nil =>
    cases h : lookupK key m k <;> simp [winner, h]
  | cons a t ih =>
    rw [List.foldl_cons, ih, List.filter_cons]
    by_cases hk : (key a == k) = true
    · have hka : key a = k := by simpa using hk
      rw [if_pos hk, ← hka, lookupK_insertPref_self]
      cases hm : lookupK key m (key a) with
      | some e => simp [winner, hka, hm]
      | none => simp [winner, hka, hm]
    · have hne : k ≠ key a := by
        intro hc
        exact hk (by simp [hc])
      rw [if_neg (by simpa using hk), lookupK_insertPref_ne key better m a k hne]

theorem lookupK_isSome_iff (m : List α) (k : String) :
    (lookupK key m k).isSome = true ↔ k ∈ m.map key := by
  unfold lookupK
  rw [List.find?_isSome]
  simp only [List.mem_map]
  constructor
  · rintro ⟨x, hx, hk⟩
    exact ⟨x, hx, by simpa using hk⟩
  · rintro ⟨x, hx, hk⟩
    exact ⟨x, hx, by simp [hk]⟩

theorem keys_map_replace (m : List α) (b : α) :
    (m.map (fun x => if key x == key b then b else x)).map key = m.map key := by
  rw [List.map_map]
  apply List.map_congr_left
  intro x _
  by_cases hx : (key x == key b) = true
  · have hxb : key x = key b := by simpa using hx
    simp [Function.comp, hx, hxb]
  · simp [Function.comp, hx]

theorem keys_nodup_insertPref (m : List α) (b : α)
    (h : (m.map key).Nodup) : ((insertPref key better m b).map key).Nodup := by
  cases hfind : m.find? (fun x => key x == key b) with
  | none =>
    have hnot : key b ∉ m.map key := by
      intro hmem
      obtain ⟨x, hx, hkx⟩ := List.mem_map.mp hmem
      have := List.find?_eq_none.mp hfind x hx
      exact this (by simp [hkx])
    rw [insertPref_of_find_none key better m b hfind]
    simp [List.nodup_append, h, hnot]
  | some e =>
    cases hb : better b e with
    | true =>
      rw [insertPref_of_find_some_better key better m b e hfind hb,
        keys_map_replace key]
      exact h
    | false =>
      rw [insertPref_of_find_some_keep key better m b e hfind hb]
      exact h

theorem keys_nodup_foldl (l m : List α)
    (h : (m.map key).Nodup) : ((l.foldl (insertPref key better) m).map key).Nodup := by
  induction l generalizing m with
  | nil => exact h
  | cons a t ih =>
    rw [List.foldl_cons]
    exact ih _ (keys_nodup_insertPref key better m a h)

theorem lookupK_of_mem_nodup (m : List α) (b : α)
    (hnd : (m.map key).Nodup) (hb : b ∈ m) : lookupK key m (key b) = some b := by
  induction m with
  | nil => cases hb
  | cons a t ih =>
    rcases List.mem_cons.mp hb with rfl | hbt
    · unfold lookupK
      rw [List.find?_cons_of_pos (p := fun x => key x == key b) t (by simp)]
    · have hna : ¬((fun x => key x == key b) a = true) := by
        simp only [beq_iff_eq]
        intro hc
        rw [List.map_cons, List.nodup_cons] at hnd
        exact hnd.1 (hc ▸ List.mem_map_of_mem key hbt)
      unfold lookupK
      rw [List.find?_cons_of_neg (p := fun x => key x == key b) t hna]
      exact ih (by rw [List.map_cons, List.nodup_cons] at hnd; exact hnd.2) hbt

theorem mem_of_lookupK (m : List α) (k : String) (b : α)
    (h : lookupK key m k = some b) : b ∈ m :=
  List.mem_of_find?_eq_some h

theorem filter_key_eq_of_mem_nodup (l : List α) (b : α)
    (hnd : (l.map key).Nodup) (hb : b ∈ l) :
    l.filter (fun x => key x == key b) = [b] := by
  induction l with
  | nil => cases hb
  | cons a t ih =>
    rw [List.map_cons, List.nodup_cons] at hnd
    rcases List.mem_cons.mp hb with rfl | hbt
    · rw [List.filter_cons, if_pos (by simp)]
      have : t.filter (fun x => key x == key b) = [] := by
        rw [List.filter_eq_nil_iff]
        intro x hx
        simp only [beq_iff_eq]
        intro hc
        exact hnd.1 (hc ▸ List.mem_map_of_mem key hx)
      rw [this]
    · have hna : ¬((fun x => key x == key b) a = true) := by
        intro hc
        have hc2 : key a = key b := by simpa using hc
        exact hnd.1 (hc2 ▸ List.mem_map_of_mem key hbt)
      rw [List.filter_cons, if_neg hna]
      exact ih hnd.2 hbt

theorem filter_eq_lookupK_toList (m : List α) (k : String)
    (hnd : (m.map key).Nodup) :
    m.filter (fun x => key x == k) = (lookupK key m k).toList := by
  induction m with
  | nil => rfl
  | cons a t ih =>
    rw [List.map_cons, List.nodup_cons] at hnd
    by_cases hk : (key a == k) = true
    · have hka : key a = k := by simpa using hk
      rw [List.filter_cons, if_pos hk]
      unfold lookupK
      rw [List.find?_cons_of_pos (p := fun x => key x == k) t hk]
      have : t.filter (fun x => key x == k) = [] := by
        rw [List.filter_eq_nil_iff]
        intro x hx
        simp only [beq_iff_eq]
        intro hc
        exact hnd.1 (by rw [hka, ← hc]; exact List.mem_map_of_mem key hx)
      simp [this]
    · rw [List.filter_cons, if_neg hk]
      unfold lookupK
      rw [List.find?_cons_of_neg (p := fun x => key x == k) t hk]
      exact ih hnd.2

theorem length_foldl_insertPref (l : List α) : ∀ (m : List α),
    (m.map key ++ l.map key).Nodup →
    (l.foldl (insertPref key better) m).length = m.length + l.length := by
  induction l with
  | nil => intro m _; simp
  | cons a t ih =>
    intro m h
    have hnotin : key a ∉ m.map key := by
      rw [List.nodup_append] at h
      intro hmem
      exact h.2.2 hmem (by simp)
    have hfind : m.find? (fun x => key x == key a) = none := by
      rw [List.find?_eq_none]
      intro x hx
      simp only [beq_iff_eq]
      intro hc
      exact hnotin (hc ▸ List.mem_map_of_mem key hx)
    rw [List.foldl_cons, insertPref_of_find_none key better m a hfind]
    have hnd : ((m ++ [a]).map key ++ t.map key).Nodup := by
      rw [List.map_append]
      simpa [List.append_assoc] using h
    rw [ih (m ++ [a]) hnd]
    simp
    omega

theorem mem_keys_mergeById (l : List α) (k : String) :
    k ∈ (mergeById key better l).map key ↔ k ∈ l.map key := by
  rw [← lookupK_isSome_iff, ← lookupK_isSome_iff]
  unfold mergeById
  rw [lookupK_foldl key better l [] k]
  cases hf : l.filter (fun x => key x == k) with
  | nil =>
    constructor
    · intro h
      simp [winner, lookupK] at h
    · intro h
      unfold lookupK at h
      rw [List.find?_isSome] at h
      obtain ⟨x, hx, hpx⟩ := h
      have hxf : x ∈ l.filter (fun x => key x == k) := List.mem_filter.mpr ⟨hx, hpx⟩
      rw [hf] at hxf
      cases hxf
  | cons a t =>
    constructor
    · intro _
      have ha : a ∈ l.filter (fun x => key x == k) := by
        rw [hf]
        exact List.mem_cons_self a t
      have hm := List.mem_filter.mp ha
      unfold lookupK
      rw [List.find?_isSome]
      exact ⟨a, hm.1, hm.2⟩
    · intro _
      simp [winner, lookupK]

end MergeLemmas

/-- JavaScript `>` on timestamps is asymmetric (also when `NaN` is involved). -/
theorem jsGt_asymm (a b : Option Int) (h : jsGt a b = true) : jsGt b a = false := by
  cases a with
  | none => simp [jsGt] at h
  | some x =>
    cases b with
    | none => simp [jsGt] at h
    | some y =>
      simp only [jsGt, decide_eq_true_eq] at h
      simp only [jsGt, decide_eq_false_iff_not]
      omega

/-! ## Spec-side statements used by the claims -/

/-- Condition under which the spec says `detectConflict` reports no conflict:
remote strictly newer from a different device, or local strictly newer with
this device as last writer (spec §4.3, steps 2-3). -/
def specNoConflict (jsDate : String → Option Int) (deviceId : String)
    (localData : BookmarkData) (remotePackage : GistDataPackage) : Bool :=
  (jsGt (jsDate remotePackage.data.lastUpdated) (jsDate localData.lastUpdated)
      && (remotePackage.metadata.deviceId != deviceId))
    || (jsGt (jsDate localData.lastUpdated) (jsDate remotePackage.data.lastUpdated)
      && (remotePackage.metadata.deviceId == deviceId))

/-- Conflict classification the spec prescribes: `merge` (near-simultaneous)
when the timestamps are less than 5000 ms apart, `data` (diverged) otherwise
(spec §4.3, step 4). -/
def specConflictType (jsDate : String → Option Int)
    (localData : BookmarkData) (remotePackage : GistDataPackage) : ConflictType :=
  if jsAbsDiffLt (jsDate localData.lastUpdated) (jsDate remotePackage.data.lastUpdated) 5000
  then .merge else .data

/-- Checksums agree whenever the two snapshots have the same entry counts and
the same `lastUpdated` string: the replacer-filtered serialization (and hence
the hash) sees nothing else. -/
theorem generateChecksum_eq_of_shape (d1 d2 : BookmarkData)
    (hb : d1.bookmarks.length = d2.bookmarks.length)
    (hc : d1.collections.length = d2.collections.length)
    (hl : d1.lastUpdated = d2.lastUpdated) :
    generateChecksum d1 = generateChecksum d2 := by
  unfold generateChecksum stringifyFiltered
  have h1 : d1.bookmarks.map (fun _ => "\x7b\x7d") = d2.bookmarks.map (fun _ => "\x7b\x7d") := by
    rw [List.map_const', List.map_const', hb]
  have h2 : d1.collections.map (fun _ => "\x7b\x7d") =
      d2.collections.map (fun _ => "\x7b\x7d") := by
    rw [List.map_const', List.map_const', hc]
  rw [h1, h2, hl]

/-! ## C1 — characterization of `detectConflict` -/

/-- C1. For every local snapshot, remote package and local device id,
`detectConflict` returns no conflict exactly when the remote timestamp is
strictly greater and the remote device differs, or the local timestamp is
strictly greater and the remote device equals the local one; in every other
case it returns a conflict, of type `merge` when the timestamps are less than
5000 ms apart and `data` otherwise. -/
theorem claim_C1_detectConflict (jsDate : String → Option Int) (deviceId nowIso : String)
    (localData : BookmarkData) (remotePackage : GistDataPackage) :
    Option.map SyncConflict.type
        (detectConflict jsDate deviceId nowIso localData remotePackage) =
      if specNoConflict jsDate deviceId localData remotePackage then none
      else some (specConflictType jsDate localData remotePackage) := by
  unfold detectConflict specNoConflict specConflictType
  by_cases h1 : (jsGt (jsDate remotePackage.data.lastUpdated) (jsDate localData.lastUpdated)
      && (remotePackage.metadata.deviceId != deviceId)) = true
  · simp [h1]
  · by_cases h2 : (jsGt (jsDate localData.lastUpdated) (jsDate remotePackage.data.lastUpdated)
        && (remotePackage.metadata.deviceId == deviceId)) = true
    · simp [h1, h2]
    · simp [h1, h2]

/-! ## C6 — behaviour of `resolveConflict` -/

/-- C6. For every conflict, resolving with `'local'` behaves exactly like
uploading the conflict's local snapshot; resolving with `'remote'` returns a
successful `downloaded` result carrying the conflict's remote snapshot and
performs no remote call at all; resolving with `'merge'` behaves exactly like
uploading `mergeData` of the two snapshots. -/
theorem claim_C6_resolveConflict (env : ServiceEnv) (jsDate : String → Option Int)
    (nowIso : String) (conflict : SyncConflict) :
    resolveConflict env jsDate nowIso conflict .useLocal =
        uploadToGist env conflict.localData ∧
      resolveConflict env jsDate nowIso conflict .useRemote =
        ({ success := true, action := .downloaded, data := some conflict.remoteData }, []) ∧
      (resolveConflict env jsDate nowIso conflict .useRemote).2 = [] ∧
      resolveConflict env jsDate nowIso conflict .useMerge =
        uploadToGist env (mergeData jsDate nowIso conflict.localData conflict.remoteData) :=
  ⟨rfl, rfl, rfl, rfl⟩

/-! ## C9 — in-flight guard of the sync triggers -/

/-- C9. Evaluating the trigger guards at the failing input: a manual
`performSync` call arriving while the status is `'syncing'` still starts a
sync (the function has no status guard), whereas the auto-interval tick and
the debounce scheduler do check for `'idle'`. This settles the claim that
*every* trigger arriving during `'syncing'` is rejected or deferred: the
manual path is not. -/
theorem claim_C9_no_inflight_guard :
    performSyncStarts true .syncing = true ∧
      autoSyncTickStarts true true 30 .syncing = false ∧
      triggerAutoSyncSchedules true true .syncing = false ∧
      autoSyncTickStarts true true 30 .idle = true := by
  decide

/-! ## C4 — checksum sensitivity -/

/-- Concrete snapshot used to exhibit the checksum's blindness to titles. -/
def checksumSampleA : BookmarkData :=
  { collections := [{ id := "c1", name := "Reading", order := 0 }]
    bookmarks := [{ id := "b1", collectionId := "c1", title := "Lean theorem proving",
                    url := "https://example.com/lean", order := 0,
                    createdAt := "2024-01-01T00:00:00.000Z",
                    updatedAt := "2024-01-01T00:00:00.000Z" }]
    lastUpdated := "2024-01-02T00:00:00.000Z" }

/-- The same snapshot with its single bookmark's title changed. -/
def checksumSampleB : BookmarkData :=
  { checksumSampleA with
      bookmarks := checksumSampleA.bookmarks.map (fun b => { b with title := "Something else" }) }

/-- C4. The checksum is blind to every bookmark field: retitling all bookmarks
never changes `generateChecksum`, and permuting the collections never changes
it either (the replacer array `Object.keys(data).sort()` filters all nested
keys away, so each entry serializes as an empty object). In particular the two
concrete snapshots differing in a single bookmark's title — and in nothing
else — get the same checksum, refuting the claimed title sensitivity; the
claimed reorder invariance does hold. -/
theorem claim_C4_checksum :
    (∀ (d : BookmarkData) (g : Bookmark → String),
      generateChecksum
          { d with bookmarks := d.bookmarks.map (fun b => { b with title := g b }) } =
        generateChecksum d) ∧
    (∀ d : BookmarkData,
      generateChecksum { d with collections := d.collections.reverse } =
        generateChecksum d) ∧
    checksumSampleA ≠ checksumSampleB ∧
    checksumSampleB.bookmarks.map Bookmark.title ≠ checksumSampleA.bookmarks.map Bookmark.title ∧
    checksumSampleB.bookmarks.map Bookmark.id = checksumSampleA.bookmarks.map Bookmark.id ∧
    checksumSampleB.collections = checksumSampleA.collections ∧
    checksumSampleB.lastUpdated = checksumSampleA.lastUpdated ∧
    generateChecksum checksumSampleA = generateChecksum checksumSampleB := by
  refine ⟨?_, ?_, by decide, by decide, by decide, by decide, by decide, ?_⟩
  · intro d g
    exact generateChecksum_eq_of_shape _ _ (by simp) rfl rfl
  · intro d
    exact generateChecksum_eq_of_shape _ _ rfl (List.length_reverse _) rfl
  · exact generateChecksum_eq_of_shape _ _ (by decide) rfl rfl

/-! ## C2 — idempotence of `sync()` -/

/-- Concrete local snapshot used in the sync scenarios. -/
def sampleData : BookmarkData :=
  { collections := [{ id := "c1", name := "Reading", order := 0 }]
    bookmarks := [{ id := "b1", collectionId := "c1", title := "Lean",
                    url := "https://example.com", order := 0,
                    createdAt := "2024-01-01T00:00:00.000Z",
                    updatedAt := "2024-01-01T00:00:00.000Z" }]
    lastUpdated := "2024-01-02T00:00:00.000Z" }

/-- Concrete date parser: interprets the one timestamp string the scenario
uses; everything else is `NaN`. -/
def sampleJsDate : String → Option Int := fun s =>
  if s == "2024-01-02T00:00:00.000Z" then some 1704153600000 else none

/-- The gist object the server returns from a create/update call (only its id
is read by the service). -/
def sampleGistResponse : Gist :=
  { id := "g1", dataFile := .absent, metaFile := .absent }

/-- First sync: no remote document exists, creation succeeds. -/
def envFirstSync : ServiceEnv :=
  { authenticated := true, findGist := none,
    createGist := .ok sampleGistResponse, updateGist := .ok sampleGistResponse }

/-- The remote document as the first sync leaves it: the data file holds
exactly the uploaded local snapshot and the metadata file the metadata stamped
by `createBookmarkGist` (same device id, checksum of the uploaded data);
`JSON.parse ∘ JSON.stringify` is the identity on this data. -/
def uploadedGist : Gist :=
  { id := "g1"
    dataFile := .parsed { collectionsField := some sampleData.collections,
                          bookmarksField := some sampleData.bookmarks,
                          lastUpdatedField := some sampleData.lastUpdated }
    metaFile := .parsed (createMetadata "device-A" "2024-01-02T00:00:05.000Z" sampleData) }

/-- Second sync: the remote document is the one just uploaded, unchanged, and
the local snapshot is unchanged too. -/
def envSecondSync : ServiceEnv :=
  { authenticated := true, findGist := some uploadedGist,
    createGist := .ok sampleGistResponse, updateGist := .ok sampleGistResponse }

/-- C2. Syncing twice with the same local snapshot, no intervening local edits
and no remote changes does *not* yield `no_change` the second time: the first
sync uploads successfully, but the second sync finds equal local and remote
timestamps, which `detectConflict` classifies as a conflict (neither strict
inequality holds), so the result is a failed `conflict` of type `merge`. The
success-path `no_change` branch of `syncWithGist` is unreachable. -/
theorem claim_C2_second_sync_conflicts :
    (syncWithGist envFirstSync sampleJsDate "device-A" "2024-01-02T00:00:05.000Z"
        sampleData).1 =
      { success := true, action := .uploaded, data := some sampleData,
        gistId := some "g1" } ∧
    (syncWithGist envSecondSync sampleJsDate "device-A" "2024-01-02T00:00:10.000Z"
        sampleData).1.action = SyncAction.conflict ∧
    (syncWithGist envSecondSync sampleJsDate "device-A" "2024-01-02T00:00:10.000Z"
        sampleData).1.success = false ∧
    Option.map SyncConflict.type
        ((syncWithGist envSecondSync sampleJsDate "device-A" "2024-01-02T00:00:10.000Z"
          sampleData).1.conflict) = some ConflictType.merge :=
  ⟨rfl, rfl, rfl, rfl⟩

/-! ## C3 — error surfacing in `sync()` -/

/-- Upload-branch failure: no remote document, and creating one fails with an
API error from the client. -/
def envUploadError : ServiceEnv :=
  { authenticated := true, findGist := none,
    createGist := .error (.api "Validation Failed" 422),
    updateGist := .ok sampleGistResponse }

/-- Counterexample to C3 as stated: a client error on the upload branch of
`sync()` surfaces with `action: 'uploaded'` (from `uploadToGist`'s own catch
block), not `action: 'no_change'`. -/
theorem claim_C3_counterexample :
    (syncWithGist envUploadError sampleJsDate "device-A" "t0" sampleData).1 =
      { success := false, action := .uploaded, error := some "Validation Failed" } ∧
    (syncWithGist envUploadError sampleJsDate "device-A" "t0" sampleData).1.action ≠
      SyncAction.no_change :=
  ⟨rfl, by decide⟩

/-- C3 (amended). `sync()` always returns a well-formed `SyncResult` (the
model is a total function: every callee catches its own throws), and a client
error on any upload branch — no remote document, corrupted remote, or
local-newer upload — surfaces as `{success: false, action: 'uploaded', error}`
with the message chosen by the shared error mapping, not as `'no_change'`. -/
theorem claim_C3_amended (env : ServiceEnv) (jsDate : String → Option Int)
    (deviceId nowIso : String) (localData : BookmarkData) (e : GhError)
    (hauth : env.authenticated = true)
    (hbranch : env.findGist = none ∨
      (∃ g, env.findGist = some g ∧ parseGistData deviceId nowIso g = none) ∨
      (∃ g pkg, env.findGist = some g ∧ parseGistData deviceId nowIso g = some pkg ∧
        detectConflict jsDate deviceId nowIso localData pkg = none ∧
        jsGt (jsDate localData.lastUpdated) (jsDate pkg.data.lastUpdated) = true))
    (herr : (match env.findGist with
             | some _ => env.updateGist
             | none => env.createGist) = Except.error e) :
    (syncWithGist env jsDate deviceId nowIso localData).1 =
      { success := false, action := .uploaded, error := some (uploadErrorMessage e) } := by
  rcases hbranch with hfind | ⟨g, hfind, hparse⟩ | ⟨g, pkg, hfind, hparse, hnoconf, hgt⟩
  · rw [hfind] at herr
    have herr2 : env.createGist = Except.error e := herr
    simp [syncWithGist, uploadToGist, withTrace, hauth, hfind, herr2]
  · rw [hfind] at herr
    have herr2 : env.updateGist = Except.error e := herr
    simp [syncWithGist, uploadToGist, withTrace, hauth, hfind, hparse, herr2]
  · rw [hfind] at herr
    have herr2 : env.updateGist = Except.error e := herr
    simp [syncWithGist, uploadToGist, withTrace, hauth, hfind, hparse, hnoconf, hgt, herr2]

/-- Witness for the amended C3 at the concrete failing environment. -/
theorem claim_C3_amended_witness :
    (syncWithGist envUploadError sampleJsDate "device-A" "t0" sampleData).1 =
      { success := false, action := .uploaded,
        error := some (uploadErrorMessage (.api "Validation Failed" 422)) } :=
  claim_C3_amended envUploadError sampleJsDate "device-A" "t0" sampleData
    (.api "Validation Failed" 422) rfl (Or.inl rfl) rfl

/-! ## C7 — corrupted remote falls back to upload -/

theorem detect_not_mem_uploadToGist (env : ServiceEnv) (d : BookmarkData) :
    Event.detect ∉ (uploadToGist env d).2 := by
  unfold uploadToGist
  cases h : env.authenticated with
  | false => simp
  | true =>
    cases hf : env.findGist with
    | some g => cases hu : env.updateGist <;> simp
    | none => cases hc : env.createGist <;> simp

/-- C7. When the remote document exists but fails to parse or validate,
`sync()` behaves exactly like the no-remote-document branch: it returns the
result of `uploadToGist` on the local snapshot, its trace is the find call
followed by the upload's own calls, and `detectConflict` is never run. -/
theorem claim_C7_corrupt_remote (env : ServiceEnv) (jsDate : String → Option Int)
    (deviceId nowIso : String) (localData : BookmarkData) (gist : Gist)
    (hauth : env.authenticated = true)
    (hfind : env.findGist = some gist)
    (hparse : parseGistData deviceId nowIso gist = none) :
    (syncWithGist env jsDate deviceId nowIso localData).1 =
        (uploadToGist env localData).1 ∧
      (syncWithGist env jsDate deviceId nowIso localData).2 =
        Event.findBookmarkGist :: (uploadToGist env localData).2 ∧
      Event.detect ∉ (syncWithGist env jsDate deviceId nowIso localData).2 := by
  have hsync : syncWithGist env jsDate deviceId nowIso localData =
      withTrace [Event.findBookmarkGist] (uploadToGist env localData) := by
    simp [syncWithGist, hauth, hfind, hparse]
  rw [hsync]
  unfold withTrace
  refine ⟨rfl, rfl, ?_⟩
  simp only [List.cons_append, List.nil_append, List.mem_cons]
  rintro (hc | hc)
  · cases hc
  · exact detect_not_mem_uploadToGist env localData hc

/-- A remote gist whose data file does not parse. -/
def corruptGist : Gist := { id := "g2", dataFile := .malformed, metaFile := .absent }

/-- Sync environment with a corrupted remote document. -/
def envCorrupt : ServiceEnv :=
  { authenticated := true, findGist := some corruptGist,
    createGist := .ok sampleGistResponse, updateGist := .ok sampleGistResponse }

/-- Witness for C7 at the concrete corrupted-remote environment. -/
theorem claim_C7_corrupt_remote_witness :
    (syncWithGist envCorrupt sampleJsDate "device-A" "t0" sampleData).1 =
        (uploadToGist envCorrupt sampleData).1 ∧
      (syncWithGist envCorrupt sampleJsDate "device-A" "t0" sampleData).2 =
        Event.findBookmarkGist :: (uploadToGist envCorrupt sampleData).2 ∧
      Event.detect ∉ (syncWithGist envCorrupt sampleJsDate "device-A" "t0" sampleData).2 :=
  claim_C7_corrupt_remote envCorrupt sampleJsDate "device-A" "t0" sampleData corruptGist
    rfl rfl rfl

/-! ## C5 — properties of `mergeData` -/

/-- C5. `mergeData` is the id-keyed union of the two snapshots: an id occurs
among the merged bookmarks (resp. collections) iff it occurs in one of the two
inputs, and it occurs exactly once (the merged id lists have no duplicates);
for inputs with well-formed (duplicate-free) ids, when both sides contain a
bookmark with the same id the one whose parsed `updatedAt` is strictly later
is kept; when the two entry id sets are disjoint the merged entry count is the
sum of the two inputs' counts; and the result's `lastUpdated` is the merge
time. -/
theorem claim_C5_mergeData (jsDate : String → Option Int) (nowIso : String)
    (localData remoteData : BookmarkData) :
    (∀ i, i ∈ (mergeData jsDate nowIso localData remoteData).bookmarks.map Bookmark.id ↔
      (i ∈ localData.bookmarks.map Bookmark.id ∨ i ∈ remoteData.bookmarks.map Bookmark.id)) ∧
    ((mergeData jsDate nowIso localData remoteData).bookmarks.map Bookmark.id).Nodup ∧
    (∀ i, i ∈ (mergeData jsDate nowIso localData remoteData).collections.map Collection.id ↔
      (i ∈ localData.collections.map Collection.id ∨
        i ∈ remoteData.collections.map Collection.id)) ∧
    ((mergeData jsDate nowIso localData remoteData).collections.map Collection.id).Nodup ∧
    (∀ b1 b2 : Bookmark,
      (localData.bookmarks.map Bookmark.id).Nodup →
      (remoteData.bookmarks.map Bookmark.id).Nodup →
      b1 ∈ localData.bookmarks → b2 ∈ remoteData.bookmarks → b1.id = b2.id →
      (jsGt (jsDate b2.updatedAt) (jsDate b1.updatedAt) = true →
        b2 ∈ (mergeData jsDate nowIso localData remoteData).bookmarks) ∧
      (jsGt (jsDate b1.updatedAt) (jsDate b2.updatedAt) = true →
        b1 ∈ (mergeData jsDate nowIso localData remoteData).bookmarks)) ∧
    ((localData.bookmarks.map Bookmark.id).Nodup →
      (remoteData.bookmarks.map Bookmark.id).Nodup →
      (∀ i, i ∈ localData.bookmarks.map Bookmark.id →
        i ∉ remoteData.bookmarks.map Bookmark.id) →
      (mergeData jsDate nowIso localData remoteData).bookmarks.length =
        localData.bookmarks.length + remoteData.bookmarks.length) ∧
    (mergeData jsDate nowIso localData remoteData).lastUpdated = nowIso := by
  refine ⟨?_, ?_, ?_, ?_, ?_, ?_, rfl⟩
  · intro i
    show i ∈ (mergeById Bookmark.id (bookmarkBetter jsDate)
      (localData.bookmarks ++ remoteData.bookmarks)).map Bookmark.id ↔ _
    rw [mem_keys_mergeById, List.map_append, List.mem_append]
  · exact keys_nodup_foldl Bookmark.id (bookmarkBetter jsDate) _ [] (by simp)
  · intro i
    show i ∈ (mergeById Collection.id (collectionBetter jsDate)
      (localData.collections ++ remoteData.collections)).map Collection.id ↔ _
    rw [mem_keys_mergeById, List.map_append, List.mem_append]
  · exact keys_nodup_foldl Collection.id (collectionBetter jsDate) _ [] (by simp)
  · intro b1 b2 hndl hndr hb1 hb2 hid
    have hfl := filter_key_eq_of_mem_nodup Bookmark.id localData.bookmarks b1 hndl hb1
    have hfr := filter_key_eq_of_mem_nodup Bookmark.id remoteData.bookmarks b2 hndr hb2
    rw [← hid] at hfr
    have hfilter : (localData.bookmarks ++ remoteData.bookmarks).filter
        (fun x => x.id == b1.id) = [b1, b2] := by
      rw [List.filter_append, hfl, hfr]
      rfl
    have hlook : lookupK Bookmark.id
        (mergeData jsDate nowIso localData remoteData).bookmarks b1.id =
        some (if bookmarkBetter jsDate b2 b1 then b2 else b1) := by
      show lookupK Bookmark.id (mergeById Bookmark.id (bookmarkBetter jsDate)
        (localData.bookmarks ++ remoteData.bookmarks)) b1.id = _
      unfold mergeById
      rw [lookupK_foldl Bookmark.id (bookmarkBetter jsDate) _ [] b1.id, hfilter]
      simp [winner, keep, lookupK]
    constructor
    · intro hgt
      have hb : bookmarkBetter jsDate b2 b1 = true := hgt
      rw [hb] at hlook
      exact mem_of_lookupK Bookmark.id _ _ _ (by simpa using hlook)
    · intro hgt
      have hb : bookmarkBetter jsDate b2 b1 = false := jsGt_asymm _ _ hgt
      rw [hb] at hlook
      exact mem_of_lookupK Bookmark.id _ _ _ (by simpa using hlook)
  · intro hndl hndr hdisj
    show (mergeById Bookmark.id (bookmarkBetter jsDate)
      (localData.bookmarks ++ remoteData.bookmarks)).length = _
    unfold mergeById
    rw [length_foldl_insertPref Bookmark.id (bookmarkBetter jsDate) _ []
      (by
        simp only [List.map_nil, List.nil_append, List.map_append]
        exact List.Nodup.append hndl hndr (List.disjoint_left.mpr hdisj))]
    simp

/-- Local side of the C5 witness scenario: one id shared with the remote side
(stale), one id of its own. -/
def mergeLocalSample : BookmarkData :=
  { collections := [{ id := "c1", name := "Reading", order := 0 }]
    bookmarks := [{ id := "shared", collectionId := "c1", title := "Old title",
                    url := "https://example.com/a", order := 0,
                    createdAt := "t1", updatedAt := "t-old" },
                  { id := "only-local", collectionId := "c1", title := "Mine",
                    url := "https://example.com/b", order := 1,
                    createdAt := "t1", updatedAt := "t-old" }]
    lastUpdated := "t1" }

/-- Remote side of the C5 witness scenario: a fresher copy of the shared
bookmark plus one id of its own. -/
def mergeRemoteSample : BookmarkData :=
  { collections := [{ id := "c1", name := "Reading", order := 0 }]
    bookmarks := [{ id := "shared", collectionId := "c1", title := "New title",
                    url := "https://example.com/a", order := 0,
                    createdAt := "t1", updatedAt := "t-new" },
                  { id := "only-remote", collectionId := "c1", title := "Theirs",
                    url := "https://example.com/c", order := 1,
                    createdAt := "t1", updatedAt := "t-new" }]
    lastUpdated := "t2" }

/-- Date parser for the merge witness: `t-old` is earlier than `t-new`. -/
def mergeJsDate : String → Option Int := fun s =>
  if s == "t-old" then some 1000 else if s == "t-new" then some 2000 else none

/-- Disjoint-id variant of the two sides, for the count conjunct. -/
def mergeLocalDisjoint : BookmarkData :=
  { mergeLocalSample with
      bookmarks := mergeLocalSample.bookmarks.filter (fun b => b.id == "only-local") }

/-- Witness for C5: at the concrete scenario, the remote copy of the shared
bookmark (strictly later `updatedAt`) survives the merge, and with disjoint id
sets the merged count is the sum of the two sides' counts. -/
theorem claim_C5_mergeData_witness :
    ((mergeData mergeJsDate "t3" mergeLocalSample mergeRemoteSample).bookmarks.map
        Bookmark.id).Nodup ∧
    mergeRemoteSample.bookmarks.get ⟨0, by decide⟩ ∈
      (mergeData mergeJsDate "t3" mergeLocalSample mergeRemoteSample).bookmarks ∧
    (mergeData mergeJsDate "t3" mergeLocalDisjoint mergeRemoteSample).bookmarks.length =
      mergeLocalDisjoint.bookmarks.length + mergeRemoteSample.bookmarks.length := by
  have h1 := claim_C5_mergeData mergeJsDate "t3" mergeLocalSample mergeRemoteSample
  have h2 := claim_C5_mergeData mergeJsDate "t3" mergeLocalDisjoint mergeRemoteSample
  refine ⟨h1.2.1, ?_, ?_⟩
  · exact (h1.2.2.2.2.1 (mergeLocalSample.bookmarks.get ⟨0, by decide⟩)
      (mergeRemoteSample.bookmarks.get ⟨0, by decide⟩)
      (by decide) (by decide) (by decide) (by decide) (by decide)).1 (by decide)
  · exact h2.2.2.2.2.2.1 (by decide) (by decide) (by decide)

/-! ## C10 — group collision with unparseable names keeps the local side -/

/-- C10. When both inputs contain a collection with the same id and neither
collection's name parses as a date, the merged output keeps exactly the local
snapshot's collection under that id: the comparison
`new Date(name).getTime() > new Date(existing.name).getTime()` is false on
`NaN`, so the first-inserted (local) collection is never replaced and the
remote one is dropped. -/
theorem claim_C10_collection_collision (jsDate : String → Option Int) (nowIso : String)
    (localData remoteData : BookmarkData) (c1 c2 : Collection)
    (hndl : (localData.collections.map Collection.id).Nodup)
    (hndr : (remoteData.collections.map Collection.id).Nodup)
    (h1 : c1 ∈ localData.collections) (h2 : c2 ∈ remoteData.collections)
    (hid : c1.id = c2.id)
    (hn1 : jsDate c1.name = none) (hn2 : jsDate c2.name = none) :
    (mergeData jsDate nowIso localData remoteData).collections.filter
        (fun c => c.id == c1.id) = [c1] := by
  have hnd : ((mergeData jsDate nowIso localData remoteData).collections.map
      Collection.id).Nodup :=
    keys_nodup_foldl Collection.id (collectionBetter jsDate) _ [] (by simp)
  rw [filter_eq_lookupK_toList Collection.id _ c1.id hnd]
  have hfl := filter_key_eq_of_mem_nodup Collection.id localData.collections c1 hndl h1
  have hfr := filter_key_eq_of_mem_nodup Collection.id remoteData.collections c2 hndr h2
  rw [← hid] at hfr
  have hfilter : (localData.collections ++ remoteData.collections).filter
      (fun x => x.id == c1.id) = [c1, c2] := by
    rw [List.filter_append, hfl, hfr]
    rfl
  have hlook : lookupK Collection.id
      (mergeData jsDate nowIso localData remoteData).collections c1.id = some c1 := by
    show lookupK Collection.id (mergeById Collection.id (collectionBetter jsDate)
      (localData.collections ++ remoteData.collections)) c1.id = _
    unfold mergeById
    rw [lookupK_foldl Collection.id (collectionBetter jsDate) _ [] c1.id, hfilter]
    simp [winner, keep, lookupK, collectionBetter, jsGt, hn1, hn2]
  rw [hlook]
  rfl

/-- Local collection of the C10 witness. -/
def collisionLocal : BookmarkData :=
  { collections := [{ id := "c", name := "Reading", order := 0 }]
    bookmarks := [], lastUpdated := "t1" }

/-- Remote collection of the C10 witness, colliding on id `c`. -/
def collisionRemote : BookmarkData :=
  { collections := [{ id := "c", name := "Work", order := 1 }]
    bookmarks := [], lastUpdated := "t2" }

/-- Witness for C10: with both names unparseable as dates (the sample parser
returns `NaN` on them), the local collection named `Reading` is the one kept. -/
theorem claim_C10_collection_collision_witness :
    (mergeData sampleJsDate "t3" collisionLocal collisionRemote).collections.filter
        (fun c => c.id == "c") = [{ id := "c", name := "Reading", order := 0 }] :=
  claim_C10_collection_collision sampleJsDate "t3" collisionLocal collisionRemote
    { id := "c", name := "Reading", order := 0 } { id := "c", name := "Work", order := 1 }
    (by decide) (by decide) (by decide) (by decide) rfl rfl rfl

/-! ## C8 — retry behaviour of the client request path -/

/-- Transient outcomes of one attempt: a rejected fetch (network failure) or a
5xx response. These are exactly the outcomes the source retries. -/
def isTransient : FetchOutcome → Bool
  | .netError _ => true
  | .response status _ _ _ => decide (500 ≤ status)

theorem mrwr_eq_netError (env : RetryEnv) (a : Nat) (m : String)
    (hf : env.fetch a = .netError m) :
    makeRequestWithRetry env a =
      if _h : a < DEFAULT_RETRY_ATTEMPTS then
        { result := (makeRequestWithRetry env (a + 1)).result
          delays := DEFAULT_RETRY_DELAY * 2 ^ (a - 1) ::
            (makeRequestWithRetry env (a + 1)).delays
          attempts := (makeRequestWithRetry env (a + 1)).attempts + 1
          tokenCleared := (makeRequestWithRetry env (a + 1)).tokenCleared }
      else
        { result := Except.error (.api ("Network error: " ++ m) 0)
          delays := [], attempts := 1, tokenCleared := false } := by
  conv_lhs => rw [makeRequestWithRetry.eq_def]
  rw [hf]

theorem mrwr_eq_response (env : RetryEnv) (a s : Nat) (st : String)
    (bm : Option String) (rr : Option Nat)
    (hf : env.fetch a = .response s st bm rr) :
    makeRequestWithRetry env a =
      (if 200 ≤ s ∧ s < 300 then
        { result := Except.ok (), delays := [], attempts := 1, tokenCleared := false }
      else if s == 401 then
        { result := Except.error (.auth "Authentication failed. Please re-authenticate.")
          delays := [], attempts := 1, tokenCleared := true }
      else if s == 403 && (bm.map (fun m => jsIncludes m "rate limit")).getD false then
        { result := Except.error (.rateLimit
            ("Rate limit exceeded. Resets at " ++
              env.fmtResetTime ((rr.getD 0 : Nat) * 1000))
            ((rr.getD 0 : Nat) * 1000))
          delays := [], attempts := 1, tokenCleared := false }
      else if _h : 500 ≤ s ∧ a < DEFAULT_RETRY_ATTEMPTS then
        { result := (makeRequestWithRetry env (a + 1)).result
          delays := DEFAULT_RETRY_DELAY * 2 ^ (a - 1) ::
            (makeRequestWithRetry env (a + 1)).delays
          attempts := (makeRequestWithRetry env (a + 1)).attempts + 1
          tokenCleared := (makeRequestWithRetry env (a + 1)).tokenCleared }
      else
        { result := Except.error (.api
            (if s == 403 then "GitHub API error: " ++ st
             else bm.getD ("GitHub API error: " ++ st)) s)
          delays := [], attempts := 1, tokenCleared := false }) := by
  conv_lhs => rw [makeRequestWithRetry.eq_def]
  rw [hf]

theorem mrwr_third_attempt_transient (env : RetryEnv)
    (h : isTransient (env.fetch 3) = true) :
    (makeRequestWithRetry env 3).attempts = 1 ∧
      (makeRequestWithRetry env 3).delays = [] ∧
      (∃ er, (makeRequestWithRetry env 3).result = Except.error er) ∧
      (makeRequestWithRetry env 3).tokenCleared = false := by
  cases hf : env.fetch 3 with
  | netError m =>
    rw [mrwr_eq_netError env 3 m hf, dif_neg (by decide : ¬(3 < DEFAULT_RETRY_ATTEMPTS))]
    exact ⟨rfl, rfl, ⟨_, rfl⟩, rfl⟩
  | response s st bm rr =>
    rw [hf] at h
    have hs : 500 ≤ s := by simpa [isTransient] using h
    rw [mrwr_eq_response env 3 s st bm rr hf,
      if_neg (by omega : ¬(200 ≤ s ∧ s < 300)),
      if_neg (by simp only [beq_iff_eq]; omega : ¬((s == 401) = true)),
      if_neg (by
        simp only [Bool.and_eq_true, beq_iff_eq]
        rintro ⟨h403, -⟩
        omega),
      dif_neg (by
        rintro ⟨-, h33⟩
        exact absurd h33 (by decide))]
    exact ⟨rfl, rfl, ⟨_, rfl⟩, rfl⟩

theorem mrwr_second_attempt_transient (env : RetryEnv)
    (h2 : isTransient (env.fetch 2) = true) (h3 : isTransient (env.fetch 3) = true) :
    (makeRequestWithRetry env 2).attempts = 2 ∧
      (makeRequestWithRetry env 2).delays = [2 * DEFAULT_RETRY_DELAY] ∧
      (∃ er, (makeRequestWithRetry env 2).result = Except.error er) ∧
      (makeRequestWithRetry env 2).tokenCleared = false := by
  obtain ⟨ha3, hd3, ⟨er3, hr3⟩, ht3⟩ := mrwr_third_attempt_transient env h3
  cases hf : env.fetch 2 with
  | netError m =>
    rw [mrwr_eq_netError env 2 m hf, dif_pos (by decide : 2 < DEFAULT_RETRY_ATTEMPTS)]
    refine ⟨by rw [ha3], ?_, ⟨er3, by rw [hr3]⟩, by rw [ht3]⟩
    rw [hd3]
    rfl
  | response s st bm rr =>
    rw [hf] at h2
    have hs : 500 ≤ s := by simpa [isTransient] using h2
    rw [mrwr_eq_response env 2 s st bm rr hf,
      if_neg (by omega : ¬(200 ≤ s ∧ s < 300)),
      if_neg (by simp only [beq_iff_eq]; omega : ¬((s == 401) = true)),
      if_neg (by
        simp only [Bool.and_eq_true, beq_iff_eq]
        rintro ⟨h403, -⟩
        omega),
      dif_pos ⟨hs, by decide⟩]
    refine ⟨by rw [ha3], ?_, ⟨er3, by rw [hr3]⟩, by rw [ht3]⟩
    rw [hd3]
    rfl

theorem mrwr_second_attempt_ok (env : RetryEnv) (s : Nat) (st : String)
    (bm : Option String) (rr : Option Nat)
    (hf : env.fetch 2 = .response s st bm rr) (hlo : 200 ≤ s) (hhi : s < 300) :
    makeRequestWithRetry env 2 =
      { result := Except.ok (), delays := [], attempts := 1, tokenCleared := false } := by
  rw [mrwr_eq_response env 2 s st bm rr hf, if_pos ⟨hlo, hhi⟩]

theorem mrwr_attempts_le_two (env : RetryEnv) :
    (makeRequestWithRetry env 2).attempts ≤ 2 := by
  have h3 : ∀ (e : RetryEnv), (makeRequestWithRetry e 3).attempts = 1 := by
    intro e
    cases hf : e.fetch 3 with
    | netError m =>
      rw [mrwr_eq_netError e 3 m hf, dif_neg (by decide : ¬(3 < DEFAULT_RETRY_ATTEMPTS))]
    | response s st bm rr =>
      rw [mrwr_eq_response e 3 s st bm rr hf]
      split
      · rfl
      · split
        · rfl
        · split
          · rfl
          · split
            · next h5 => exact absurd h5.2 (by decide)
            · rfl
  cases hf : env.fetch 2 with
  | netError m =>
    rw [mrwr_eq_netError env 2 m hf, dif_pos (by decide : 2 < DEFAULT_RETRY_ATTEMPTS)]
    simp [h3 env]
  | response s st bm rr =>
    rw [mrwr_eq_response env 2 s st bm rr hf]
    split
    · exact Nat.le_succ 1
    · split
      · exact Nat.le_succ 1
      · split
        · exact Nat.le_succ 1
        · split
          · simp [h3 env]
          · exact Nat.le_succ 1

/-- C8 (amended). The request path retries only transient failures with
doubling delays up to three total attempts and then fails; 401 clears the
token and raises the auth error with no retry; 403 with a rate-limit message
raises the rate-limit error carrying `reset * 1000` with no retry; any other
non-2xx response except a 403 raises the API error with the server's message
with no retry; a 403 whose body message does not mention rate limiting raises
the API error with no retry but carrying only the generic
`GitHub API error: <statusText>` message, the body having been consumed by the
rate-limit check; a transient failure followed by a 2xx succeeds on the second
attempt after one base delay. -/
theorem claim_C8_makeRequestWithRetry (env : RetryEnv) :
    (makeRequestWithRetry env 1).attempts ≤ DEFAULT_RETRY_ATTEMPTS ∧
    (∀ st bm rr, env.fetch 1 = .response 401 st bm rr →
      makeRequestWithRetry env 1 =
        { result := Except.error (.auth "Authentication failed. Please re-authenticate."),
          delays := [], attempts := 1, tokenCleared := true }) ∧
    (∀ st m rr, env.fetch 1 = .response 403 st (some m) rr →
      jsIncludes m "rate limit" = true →
      makeRequestWithRetry env 1 =
        { result := Except.error (.rateLimit
            ("Rate limit exceeded. Resets at " ++ env.fmtResetTime ((rr.getD 0 : Nat) * 1000))
            ((rr.getD 0 : Nat) * 1000)),
          delays := [], attempts := 1, tokenCleared := false }) ∧
    (∀ s st bm rr, env.fetch 1 = .response s st bm rr →
      ¬(200 ≤ s ∧ s < 300) → s ≠ 401 → s ≠ 403 → s < 500 →
      makeRequestWithRetry env 1 =
        { result := Except.error (.api (bm.getD ("GitHub API error: " ++ st)) s),
          delays := [], attempts := 1, tokenCleared := false }) ∧
    (∀ st bm rr, env.fetch 1 = .response 403 st bm rr →
      (bm.map (fun m => jsIncludes m "rate limit")).getD false = false →
      makeRequestWithRetry env 1 =
        { result := Except.error (.api ("GitHub API error: " ++ st) 403),
          delays := [], attempts := 1, tokenCleared := false }) ∧
    (isTransient (env.fetch 1) = true → isTransient (env.fetch 2) = true →
      isTransient (env.fetch 3) = true →
      (makeRequestWithRetry env 1).attempts = 3 ∧
      (makeRequestWithRetry env 1).delays = [DEFAULT_RETRY_DELAY, 2 * DEFAULT_RETRY_DELAY] ∧
      (∃ er, (makeRequestWithRetry env 1).result = Except.error er) ∧
      (makeRequestWithRetry env 1).tokenCleared = false) ∧
    (∀ s st bm rr, isTransient (env.fetch 1) = true →
      env.fetch 2 = .response s st bm rr → 200 ≤ s → s < 300 →
      makeRequestWithRetry env 1 =
        { result := Except.ok (), delays := [DEFAULT_RETRY_DELAY], attempts := 2,
          tokenCleared := false }) := by
  refine ⟨?_, ?_, ?_, ?_, ?_, ?_, ?_⟩
  · -- attempts bound
    cases hf : env.fetch 1 with
    | netError m =>
      rw [mrwr_eq_netError env 1 m hf, dif_pos (by decide : 1 < DEFAULT_RETRY_ATTEMPTS)]
      have h2 := mrwr_attempts_le_two env
      show (makeRequestWithRetry env 2).attempts + 1 ≤ DEFAULT_RETRY_ATTEMPTS
      unfold DEFAULT_RETRY_ATTEMPTS
      omega
    | response s st bm rr =>
      rw [mrwr_eq_response env 1 s st bm rr hf]
      split
      · show 1 ≤ DEFAULT_RETRY_ATTEMPTS
        decide
      · split
        · show 1 ≤ DEFAULT_RETRY_ATTEMPTS
          decide
        · split
          · show 1 ≤ DEFAULT_RETRY_ATTEMPTS
            decide
          · split
            · have h2 := mrwr_attempts_le_two env
              show (makeRequestWithRetry env 2).attempts + 1 ≤ DEFAULT_RETRY_ATTEMPTS
              unfold DEFAULT_RETRY_ATTEMPTS
              omega
            · show 1 ≤ DEFAULT_RETRY_ATTEMPTS
              decide
  · -- 401
    intro st bm rr hf
    rw [mrwr_eq_response env 1 401 st bm rr hf,
      if_neg (by omega : ¬(200 ≤ 401 ∧ 401 < 300)),
      if_pos (by decide : (401 == 401) = true)]
  · -- 403 with rate-limit message
    intro st m rr hf hinc
    rw [mrwr_eq_response env 1 403 st (some m) rr hf,
      if_neg (by omega : ¬(200 ≤ 403 ∧ 403 < 300)),
      if_neg (by decide : ¬((403 == 401) = true)),
      if_pos (by simp [hinc])]
  · -- other non-2xx, not 403
    intro s st bm rr hf h2xx h401 h403 h5xx
    rw [mrwr_eq_response env 1 s st bm rr hf, if_neg h2xx,
      if_neg (by simp only [beq_iff_eq]; exact h401),
      if_neg (by
        simp only [Bool.and_eq_true, beq_iff_eq]
        rintro ⟨ha, -⟩
        exact h403 ha),
      dif_neg (by rintro ⟨hc, -⟩; omega),
      if_neg (by simp only [beq_iff_eq]; exact h403)]
  · -- 403 without a rate-limit message: body already consumed, generic message
    intro st bm rr hf hnorl
    rw [mrwr_eq_response env 1 403 st bm rr hf,
      if_neg (by omega : ¬(200 ≤ 403 ∧ 403 < 300)),
      if_neg (by decide : ¬((403 == 401) = true)),
      if_neg (by
        simp only [Bool.and_eq_true, beq_iff_eq]
        rintro ⟨-, hb⟩
        rw [hnorl] at hb
        exact absurd hb (by decide)),
      dif_neg (by rintro ⟨hc, -⟩; omega),
      if_pos (by decide : ((403 : Nat) == 403) = true)]
  · -- three transient attempts
    intro h1 h2 h3
    obtain ⟨ha2, hd2, ⟨er2, hr2⟩, ht2⟩ := mrwr_second_attempt_transient env h2 h3
    have hstep : makeRequestWithRetry env 1 =
        { result := (makeRequestWithRetry env 2).result
          delays := DEFAULT_RETRY_DELAY * 2 ^ 0 :: (makeRequestWithRetry env 2).delays
          attempts := (makeRequestWithRetry env 2).attempts + 1
          tokenCleared := (makeRequestWithRetry env 2).tokenCleared } := by
      cases hf : env.fetch 1 with
      | netError m =>
        rw [mrwr_eq_netError env 1 m hf, dif_pos (by decide : 1 < DEFAULT_RETRY_ATTEMPTS)]
      | response s st bm rr =>
        rw [hf] at h1
        have hs : 500 ≤ s := by simpa [isTransient] using h1
        rw [mrwr_eq_response env 1 s st bm rr hf,
          if_neg (by omega : ¬(200 ≤ s ∧ s < 300)),
          if_neg (by simp only [beq_iff_eq]; omega : ¬((s == 401) = true)),
          if_neg (by
            simp only [Bool.and_eq_true, beq_iff_eq]
            rintro ⟨h403, -⟩
            omega),
          dif_pos ⟨hs, by decide⟩]
    rw [hstep]
    refine ⟨by rw [ha2], ?_, ⟨er2, by rw [hr2]⟩, by rw [ht2]⟩
    rw [hd2]
    rfl
  · -- transient then success
    intro s st bm rr h1 hf hlo hhi
    have hok := mrwr_second_attempt_ok env s st bm rr hf hlo hhi
    have hstep : makeRequestWithRetry env 1 =
        { result := (makeRequestWithRetry env 2).result
          delays := DEFAULT_RETRY_DELAY * 2 ^ 0 :: (makeRequestWithRetry env 2).delays
          attempts := (makeRequestWithRetry env 2).attempts + 1
          tokenCleared := (makeRequestWithRetry env 2).tokenCleared } := by
      cases hg : env.fetch 1 with
      | netError m =>
        rw [mrwr_eq_netError env 1 m hg, dif_pos (by decide : 1 < DEFAULT_RETRY_ATTEMPTS)]
      | response s1 st1 bm1 rr1 =>
        rw [hg] at h1
        have hs : 500 ≤ s1 := by simpa [isTransient] using h1
        rw [mrwr_eq_response env 1 s1 st1 bm1 rr1 hg,
          if_neg (by omega : ¬(200 ≤ s1 ∧ s1 < 300)),
          if_neg (by simp only [beq_iff_eq]; omega : ¬((s1 == 401) = true)),
          if_neg (by
            simp only [Bool.and_eq_true, beq_iff_eq]
            rintro ⟨h403, -⟩
            omega),
          dif_pos ⟨hs, by decide⟩]
    rw [hstep, hok]
    rfl

/-- Environment for the C8 counterexample: the first attempt gets a 403 whose
body message does not mention rate limiting. -/
def envForbidden : RetryEnv :=
  { fetch := fun _ =>
      .response 403 "Forbidden" (some "Resource not accessible by integration") none
    fmtResetTime := fun _ => "12:00:00 AM" }

/-- Counterexample to C8 as stated: a non-rate-limit 403 raises the API error
with the generic `GitHub API error: Forbidden` message, not with the server's
body message — the rate-limit check already consumed the response body, so the
later body read yields an empty object and the server message is dropped. -/
theorem claim_C8_counterexample :
    jsIncludes "Resource not accessible by integration" "rate limit" = false ∧
    makeRequestWithRetry envForbidden 1 =
      { result := Except.error (.api "GitHub API error: Forbidden" 403)
        delays := [], attempts := 1, tokenCleared := false } ∧
    "GitHub API error: Forbidden" ≠ "Resource not accessible by integration" := by
  refine ⟨by decide, ?_, by decide⟩
  rw [mrwr_eq_response envForbidden 1 403 "Forbidden"
      (some "Resource not accessible by integration") none rfl,
    if_neg (by omega : ¬(200 ≤ 403 ∧ 403 < 300)),
    if_neg (by decide : ¬(((403 : Nat) == 401) = true)),
    if_neg (by decide :
      ¬(((403 : Nat) == 403 &&
        ((some "Resource not accessible by integration").map
          (fun m => jsIncludes m "rate limit")).getD false) = true)),
    dif_neg (by rintro ⟨hc, -⟩; omega),
    if_pos (by decide : ((403 : Nat) == 403) = true)]
  rfl

/-- Environment for the C8 witness: the first attempt gets a 401. -/
def envAuthFail : RetryEnv :=
  { fetch := fun _ => .response 401 "Unauthorized" (some "Bad credentials") none
    fmtResetTime := fun _ => "12:00:00 AM" }

/-- Witness for C8: at the concrete 401 environment the request raises the
auth error with the stored token cleared, after exactly one attempt. -/
theorem claim_C8_makeRequestWithRetry_witness :
    makeRequestWithRetry envAuthFail 1 =
      { result := Except.error (.auth "Authentication failed. Please re-authenticate."),
        delays := [], attempts := 1, tokenCleared := true } :=
  (claim_C8_makeRequestWithRetry envAuthFail).2.1 "Unauthorized"
    (some "Bad credentials") none rfl

end Shelf
